import Mathlib

/-!
Verification development for `src/python/src/services/mcp_client_service.py`
(Universal MCP Client Service).

The service state is embedded shallowly: Python dicts become association
lists keyed by strings, each `async` service method becomes a state-passing
function, and every call into the external MCP SDK (transport bootstrapping,
`session.initialize()`, `session.list_tools()`, `session.call_tool()`) is
resolved by an explicit environment `Env` supplied to the operation, so that
one operation invocation corresponds to one atomic state transition.
Exceptions become an explicit result type `PyResult`.

Faithfulness notes, keyed to the source:
- `_create_stdio_session` and `_create_docker_session` return a `MockSession`
  whose `initialize()` always succeeds and which has no `list_tools` or
  `call_tool` attribute (so those calls raise `AttributeError`).  This is
  modelled by `Session.mock`.
- `_create_sse_session` and `_create_npx_session` build a real
  `ClientSession`; modelled by `Session.real`, whose external calls are
  resolved by `Env`.
- Nothing in the source ever inserts into `self.processes`; the table and
  its cleanup bookkeeping are modelled anyway.
- `_discover_tools` catches every exception internally (it logs and records
  `last_error`), hence its embedding is a total function on states and the
  `except` branch of `_perform_health_checks` (mark Error / reconnect) is
  unreachable and has no image in the embedding.
- Connection-parameter dictionaries are modelled by the fixed keys the code
  reads (`command`, `args`, `url`, `package`); `working_dir` and `env` only
  feed the external process parameters and carry no control flow, so they
  are elided.  Python truthiness checks (`if not url` etc.) are modelled by
  `pyNotStr` / `pyNotVal` (absent, empty string, empty list).
-/

set_option linter.unusedVariables false

namespace MCPService

/-- Association-list model of a Python dict keyed by strings. -/
def dlookup {α : Type} : List (String × α) → String → Option α
  | [], _ => none
  | (k, v) :: rest, key => if k = key then some v else dlookup rest key

/-- `d[key] = v` on a Python dict: replace the binding if present, else append. -/
def dset {α : Type} : List (String × α) → String → α → List (String × α)
  | [], key, v => [(key, v)]
  | (k, w) :: rest, key, v =>
    if k = key then (k, v) :: rest else (k, w) :: dset rest key v

/-- `del d[key]` on a Python dict. -/
def derase {α : Type} : List (String × α) → String → List (String × α)
  | [], _ => []
  | (k, w) :: rest, key =>
    if k = key then derase rest key else (k, w) :: derase rest key

/-- `key in d` on a Python dict. -/
def hasKey {α : Type} (d : List (String × α)) (key : String) : Bool :=
  (dlookup d key).isSome

/-- `TransportType` enum from the source. -/
inductive TransportType where
  | stdio
  | docker
  | sse
  | npx
deriving DecidableEq

/-- `ClientStatus` enum from the source. -/
inductive ClientStatus where
  | disconnected
  | connecting
  | connected
  | error
deriving DecidableEq

/-- A value stored under `command` in a connection-config dict: the source
accepts both a string and a list of strings there. -/
inductive ConfigVal where
  | str (s : String)
  | list (l : List String)
deriving DecidableEq

/-- Python `not x` on an optional string parameter (absent or empty is falsy). -/
def pyNotStr : Option String → Bool
  | none => true
  | some s => s == ""

/-- Python `not x` on an optional `command` value. -/
def pyNotVal : Option ConfigVal → Bool
  | none => true
  | some (ConfigVal.str s) => s == ""
  | some (ConfigVal.list l) => l.isEmpty

/-- The connection-parameter keys the source reads from `connection_config`. -/
structure ConnectionConfig where
  command : Option ConfigVal := none
  args : List String := []
  url : Option String := none
  package : Option String := none
deriving DecidableEq

/-- `MCPClientConfig` dataclass from the source. -/
structure MCPClientConfig where
  name : String
  transport_type : TransportType
  connection_config : ConnectionConfig
  auto_connect : Bool := false
  health_check_interval : Nat := 30
  is_default : Bool := false
deriving DecidableEq

/-- An MCP tool descriptor (only the name is observed by the service). -/
structure Tool where
  name : String
deriving DecidableEq

/-- Result of a forwarded `call_tool` (opaque to the service). -/
structure CallToolResult where
  content : String := ""
deriving DecidableEq

/-- `MCPClientInfo` dataclass from the source (defaults mirror
`__post_init__`, which replaces a missing tools list by `[]`). -/
structure MCPClientInfo where
  id : String
  config : MCPClientConfig
  status : ClientStatus := ClientStatus.disconnected
  last_seen : Option Nat := none
  last_error : Option String := none
  tools : List Tool := []
deriving DecidableEq

/-- Python exceptions raised by the embedded code.  `generic` stands for an
arbitrary exception propagating out of the MCP SDK. -/
inductive PyErr where
  | valueError (m : String)
  | runtimeError (m : String)
  | attributeError (m : String)
  | indexError (m : String)
  | generic (m : String)
deriving DecidableEq

/-- `str(e)`: the message recorded into `last_error`. -/
def PyErr.msg : PyErr → String
  | PyErr.valueError m => m
  | PyErr.runtimeError m => m
  | PyErr.attributeError m => m
  | PyErr.indexError m => m
  | PyErr.generic m => m

/-- Result of a Python call: normal return or a raised exception. -/
inductive PyResult (α : Type) where
  | ok (a : α)
  | exn (e : PyErr)
deriving DecidableEq

/-- A session capability held in the session table.  The stdio and docker
transports of the source return a `MockSession`; sse and npx return a real
`ClientSession`. -/
inductive Session where
  | mock
  | real
deriving DecidableEq

/-- Outcomes of the external calls made during one service operation. -/
structure Env where
  now : Nat := 0
  createErr : Option PyErr := none
  realInitErr : Option PyErr := none
  listToolsRes : PyResult (List Tool) := PyResult.ok []
  callToolRes : PyResult CallToolResult := PyResult.ok {}

/-- The mutable state of `MCPClientService`: the three tables plus the
running flag, the shutdown event, and a count of spawned health loops. -/
structure ServiceState where
  clients : List (String × MCPClientInfo) := []
  sessions : List (String × Session) := []
  processes : List (String × Nat) := []
  running : Bool := false
  shutdownSet : Bool := false
  healthLoops : Nat := 0
deriving DecidableEq

/-- `MCPClientService.__init__`. -/
def initialState : ServiceState := {}

/-- `command + args` (resp. `[command] + args`) as in the stdio and docker
session builders. -/
def fullCommand (command : ConfigVal) (args : List String) : List String :=
  match command with
  | ConfigVal.str s => s :: args
  | ConfigVal.list l => l ++ args

/-- `_create_stdio_session`: builds the argv (indexing `full_command[0]`
raises `IndexError` when it is empty), then calls `stdio_client` (external,
may raise) and returns a `MockSession`. -/
def createStdioSession (env : Env) (config : MCPClientConfig) : PyResult Session :=
  let command := config.connection_config.command.getD (ConfigVal.list [])
  let fc := fullCommand command config.connection_config.args
  if fc.isEmpty then PyResult.exn (PyErr.indexError "list index out of range")
  else
    match env.createErr with
    | some e => PyResult.exn e
    | none => PyResult.ok Session.mock

/-- `_create_docker_session`: requires a truthy `command`, then calls
`stdio_client` (external) and returns a `MockSession`.  The source message
quotes the key name; the quotes are elided here. -/
def createDockerSession (env : Env) (config : MCPClientConfig) : PyResult Session :=
  if pyNotVal config.connection_config.command then
    PyResult.exn (PyErr.valueError "Docker transport requires command in connection_config")
  else
    match env.createErr with
    | some e => PyResult.exn e
    | none => PyResult.ok Session.mock

/-- `_create_sse_session`: requires a truthy `url`, then opens the SSE
stream (external) and wraps it in a real `ClientSession`. -/
def createSseSession (env : Env) (config : MCPClientConfig) : PyResult Session :=
  if pyNotStr config.connection_config.url then
    PyResult.exn (PyErr.valueError "SSE transport requires url in connection_config")
  else
    match env.createErr with
    | some e => PyResult.exn e
    | none => PyResult.ok Session.real

/-- `_create_npx_session`: requires a truthy `package`, then starts the npx
process (external) and wraps it in a real `ClientSession`. -/
def createNpxSession (env : Env) (config : MCPClientConfig) : PyResult Session :=
  if pyNotStr config.connection_config.package then
    PyResult.exn (PyErr.valueError "NPX transport requires package in connection_config")
  else
    match env.createErr with
    | some e => PyResult.exn e
    | none => PyResult.ok Session.real

/-- `_create_session`: dispatch on the transport type. -/
def createSession (env : Env) (config : MCPClientConfig) : PyResult Session :=
  match config.transport_type with
  | TransportType.stdio => createStdioSession env config
  | TransportType.docker => createDockerSession env config
  | TransportType.sse => createSseSession env config
  | TransportType.npx => createNpxSession env config

/-- `session.initialize()`: a `MockSession` always succeeds; a real session
is resolved by the environment. -/
def sessionInit (env : Env) : Session → PyResult Unit
  | Session.mock => PyResult.ok ()
  | Session.real =>
    match env.realInitErr with
    | some e => PyResult.exn e
    | none => PyResult.ok ()

/-- `session.list_tools()`: a `MockSession` has no such attribute. -/
def sessionListTools (env : Env) : Session → PyResult (List Tool)
  | Session.mock => PyResult.exn (PyErr.attributeError "MockSession object has no attribute list_tools")
  | Session.real => env.listToolsRes

/-- `session.call_tool(request)`: a `MockSession` has no such attribute. -/
def sessionCallTool (env : Env) : Session → PyResult CallToolResult
  | Session.mock => PyResult.exn (PyErr.attributeError "MockSession object has no attribute call_tool")
  | Session.real => env.callToolRes

/-- `_cleanup_client_connection`: drop the session entry and the process
entry; teardown failures are logged but the bookkeeping always completes. -/
def cleanupClientConnection (s : ServiceState) (client_id : String) : ServiceState :=
  { s with sessions := derase s.sessions client_id,
           processes := derase s.processes client_id }

/-- `_discover_tools`: no-op when session or record is missing; on success
replaces `tools` and bumps `last_seen`; every failure is caught and only
recorded into `last_error` (this function never raises). -/
def discoverTools (env : Env) (s : ServiceState) (client_id : String) : ServiceState :=
  match dlookup s.sessions client_id, dlookup s.clients client_id with
  | some session, some ci =>
    (match sessionListTools env session with
     | PyResult.ok result =>
       let ci2 := { ci with tools := result, last_seen := some env.now }
       { s with clients := dset s.clients client_id ci2 }
     | PyResult.exn e =>
       let ci2 := { ci with last_error := some (PyErr.msg e) }
       { s with clients := dset s.clients client_id ci2 })
  | _, _ => s

/-- The `except` block of `connect_client`: mark the record `ERROR`, record
`str(e)`, clean up any partial resources, and re-raise. -/
def connectFail (s : ServiceState) (client_id : String) (ci1 : MCPClientInfo)
    (e : PyErr) : PyResult Bool × ServiceState :=
  let ci2 := { ci1 with status := ClientStatus.error, last_error := some (PyErr.msg e) }
  let s2 := { s with clients := dset s.clients client_id ci2 }
  (PyResult.exn e, cleanupClientConnection s2 client_id)

/-- `connect_client`. -/
def connectClient (env : Env) (s : ServiceState) (client_id : String) :
    PyResult Bool × ServiceState :=
  match dlookup s.clients client_id with
  | none => (PyResult.exn (PyErr.valueError ("Client not found: " ++ client_id)), s)
  | some ci =>
    if ci.status = ClientStatus.connected then
      (PyResult.ok true, s)
    else
      let ci1 := { ci with status := ClientStatus.connecting, last_error := none }
      let s1 := { s with clients := dset s.clients client_id ci1 }
      match createSession env ci.config with
      | PyResult.exn e => connectFail s1 client_id ci1 e
      | PyResult.ok session =>
        match sessionInit env session with
        | PyResult.exn e => connectFail s1 client_id ci1 e
        | PyResult.ok _ =>
          let ci2 := { ci1 with status := ClientStatus.connected, last_seen := some env.now }
          let s2 := { s1 with sessions := dset s1.sessions client_id session,
                              clients := dset s1.clients client_id ci2 }
          (PyResult.ok true, discoverTools env s2 client_id)

/-- `disconnect_client`. -/
def disconnectClient (s : ServiceState) (client_id : String) : Bool × ServiceState :=
  match dlookup s.clients client_id with
  | none => (false, s)
  | some ci =>
    let s1 := cleanupClientConnection s client_id
    let ci2 := { ci with status := ClientStatus.disconnected, tools := [] }
    (true, { s1 with clients := dset s1.clients client_id ci2 })

/-- `add_client`: unconditionally stores a fresh record (there is no
duplicate-id check in the source), then auto-connects when configured,
catching a connect failure and recording it into `last_error`. -/
def addClient (env : Env) (s : ServiceState) (client_id : String)
    (config : MCPClientConfig) : MCPClientInfo × ServiceState :=
  let ci : MCPClientInfo := { id := client_id, config := config }
  let s1 := { s with clients := dset s.clients client_id ci }
  if config.auto_connect then
    match connectClient env s1 client_id with
    | (PyResult.exn e, s2) =>
      let s3 :=
        match dlookup s2.clients client_id with
        | some ci2 =>
          let ci3 := { ci2 with last_error := some (PyErr.msg e) }
          { s2 with clients := dset s2.clients client_id ci3 }
        | none => s2
      ((dlookup s3.clients client_id).getD ci, s3)
    | (PyResult.ok _, s2) => ((dlookup s2.clients client_id).getD ci, s2)
  else
    (ci, s1)

/-- `remove_client`: absent ids report `False`; otherwise disconnect first,
then delete the record. -/
def removeClient (s : ServiceState) (client_id : String) : Bool × ServiceState :=
  match dlookup s.clients client_id with
  | none => (false, s)
  | some _ =>
    let s1 := (disconnectClient s client_id).2
    (true, { s1 with clients := derase s1.clients client_id })

/-- `call_tool`. -/
def callTool (env : Env) (s : ServiceState) (client_id : String)
    (tool_name : String) (arguments : List (String × String)) :
    PyResult CallToolResult × ServiceState :=
  match dlookup s.sessions client_id, dlookup s.clients client_id with
  | some session, some ci =>
    if ci.status = ClientStatus.connected then
      match sessionCallTool env session with
      | PyResult.ok result =>
        let ci2 := { ci with last_seen := some env.now }
        (PyResult.ok result, { s with clients := dset s.clients client_id ci2 })
      | PyResult.exn e =>
        let ci2 := { ci with last_error := some (PyErr.msg e) }
        (PyResult.exn e, { s with clients := dset s.clients client_id ci2 })
    else
      (PyResult.exn (PyErr.runtimeError ("Client not connected: " ++ client_id)), s)
  | _, _ =>
    (PyResult.exn (PyErr.valueError ("Client not found or not connected: " ++ client_id)), s)

/-- `_perform_health_checks`: probe each `CONNECTED` record via
`_discover_tools`.  The surrounding `try`/`except` (mark `ERROR`, reconnect
when `auto_connect`) is unreachable, because `_discover_tools` catches every
exception itself; accordingly it has no image here. -/
def performHealthChecks (env : Env) (s : ServiceState) : ServiceState :=
  (s.clients.map Prod.fst).foldl
    (fun acc cid =>
      match dlookup acc.clients cid with
      | some ci =>
        if ci.status = ClientStatus.connected then discoverTools env acc cid else acc
      | none => acc) s

/-- `start`: early-return when already running, else set the flag and spawn
one `_health_check_loop` task (`healthLoops` counts spawned loops). -/
def startService (s : ServiceState) : ServiceState :=
  if s.running then s
  else { s with running := true, healthLoops := s.healthLoops + 1 }

/-- `stop`: early-return when not running, else clear the flag, set the
shutdown event and disconnect every registered client. -/
def stopService (s : ServiceState) : ServiceState :=
  if s.running then
    let s1 := { s with running := false, shutdownSet := true }
    (s1.clients.map Prod.fst).foldl (fun acc cid => (disconnectClient acc cid).2) s1
  else s

/-- One externally-triggered service operation (the operations quantified
over by the registry/session-table invariant). -/
inductive Op where
  | add (cid : String) (config : MCPClientConfig) (env : Env)
  | connect (cid : String) (env : Env)
  | disconnect (cid : String)
  | remove (cid : String)
  | sweep (env : Env)

/-- Apply one operation, discarding its return value. -/
def applyOp (s : ServiceState) : Op → ServiceState
  | Op.add cid config env => (addClient env s cid config).2
  | Op.connect cid env => (connectClient env s cid).2
  | Op.disconnect cid => (disconnectClient s cid).2
  | Op.remove cid => (removeClient s cid).2
  | Op.sweep env => performHealthChecks env s

/-- Run a sequence of operations. -/
def runOps (s : ServiceState) (ops : List Op) : ServiceState :=
  ops.foldl applyOp s

/-- Guard for one operation: `add` must target an unregistered id. -/
def opGuard (s : ServiceState) : Op → Bool
  | Op.add cid _ _ => !(hasKey s.clients cid)
  | _ => true

/-- A sequence is good when `add` is only ever invoked on ids that are not
registered at that moment (the source overwrites on duplicates). -/
def goodSeq : ServiceState → List Op → Bool
  | _, [] => true
  | s, op :: rest => opGuard s op && goodSeq (applyOp s op) rest

/-- Session-table half of the invariant: an entry exists exactly for the
registered ids whose status is `connected`. -/
def SessionInv (s : ServiceState) : Prop :=
  ∀ cid : String, hasKey s.sessions cid = true ↔
    ∃ ci, dlookup s.clients cid = some ci ∧ ci.status = ClientStatus.connected

/-- Tools half of the invariant: a non-empty tools list implies `connected`. -/
def ToolsInv (s : ServiceState) : Prop :=
  ∀ cid ci, dlookup s.clients cid = some ci → ci.tools ≠ [] →
    ci.status = ClientStatus.connected

/-- The registry/session-table invariant of the specification. -/
def Invariant (s : ServiceState) : Prop := SessionInv s ∧ ToolsInv s

/-! Concrete instances used by the closed theorems below. -/

/-- An SSE client configuration with a URL (cf. `get_example_sse_config`). -/
def cfgSse : MCPClientConfig :=
  { name := "Remote", transport_type := TransportType.sse,
    connection_config := { url := some "http://localhost:8080/sse" } }

/-- The same configuration with `auto_connect` enabled. -/
def cfgSseAuto : MCPClientConfig := { cfgSse with auto_connect := true }

/-- An SSE client configuration lacking the required `url` parameter. -/
def cfgSseBad : MCPClientConfig :=
  { name := "bad", transport_type := TransportType.sse, connection_config := {} }

/-- An environment in which every external call succeeds. -/
def envOk : Env :=
  { now := 1, listToolsRes := PyResult.ok [{ name := "t1" }],
    callToolRes := PyResult.ok { content := "ok" } }

/-- An environment in which `list_tools()` fails (dead session probe). -/
def envProbeFail : Env :=
  { now := 2, listToolsRes := PyResult.exn (PyErr.generic "probe failed") }

/-- An environment in which only tool discovery fails. -/
def envDF : Env := { now := 3, listToolsRes := PyResult.exn (PyErr.generic "boom") }

/-- State with the SSE client registered (disconnected) under id `c`. -/
def s0c : ServiceState := (addClient envOk initialState "c" cfgSse).2

/-- State with the SSE client under id `c` successfully connected. -/
def sConn : ServiceState := (connectClient envOk s0c "c").2

/-- State with the url-less SSE client registered under id `bad`. -/
def s0bad : ServiceState := (addClient envOk initialState "bad" cfgSseBad).2

/-- State with a connected `auto_connect` SSE client under id `c`. -/
def c3state : ServiceState := runOps initialState [Op.add "c" cfgSseAuto envOk]

/-- An operation sequence that calls `add` on an already-registered id. -/
def dupOps : List Op :=
  [Op.add "a" cfgSse envOk, Op.connect "a" envOk, Op.add "a" cfgSse envOk]

/-- A well-formed demonstration sequence (every `add` is on a fresh id). -/
def demoOps : List Op :=
  [Op.add "a" cfgSse envOk, Op.connect "a" envOk, Op.add "b" cfgSseBad envOk,
   Op.sweep envProbeFail, Op.disconnect "a", Op.connect "a" envDF,
   Op.add "d" cfgSseAuto envProbeFail, Op.remove "a", Op.sweep envOk]

/-- The record stored for id `c` in `s0c` (fresh SSE registration). -/
def c1rec : MCPClientInfo := { id := "c", config := cfgSse }

/-- The record stored for id `c` in `sConn` (connected, one tool). -/
def cRec : MCPClientInfo :=
  { id := "c", config := cfgSse, status := ClientStatus.connected,
    last_seen := some 1, last_error := none, tools := [{ name := "t1" }] }

/-- The record stored for id `bad` in `s0bad`. -/
def badRec : MCPClientInfo := { id := "bad", config := cfgSseBad }

/-- A record in `error` status (used to exercise the NotConnected branch). -/
def errRec : MCPClientInfo :=
  { id := "c", config := cfgSse, status := ClientStatus.error }

/-- A state holding a session entry for a non-connected record. -/
def sDiscSess : ServiceState :=
  { clients := [("c", errRec)], sessions := [("c", Session.real)] }

/-- An environment in which the forwarded tool call fails. -/
def envCallFail : Env :=
  { now := 4, callToolRes := PyResult.exn (PyErr.generic "call failed") }

/-- The spec's MissingParameter condition per transport, as checked by the
session builders (`stdio` performs no such check). -/
def missingRequiredParam (config : MCPClientConfig) : Bool :=
  match config.transport_type with
  | TransportType.sse => pyNotStr config.connection_config.url
  | TransportType.npx => pyNotStr config.connection_config.package
  | TransportType.docker => pyNotVal config.connection_config.command
  | TransportType.stdio => false

/-- The `ValueError` message raised for a missing required parameter. -/
def missingParamMsg : TransportType → String
  | TransportType.sse => "SSE transport requires url in connection_config"
  | TransportType.npx => "NPX transport requires package in connection_config"
  | TransportType.docker => "Docker transport requires command in connection_config"
  | TransportType.stdio => ""

/-! Dictionary lemmas. -/

theorem dlookup_dset_self {α : Type} (d : List (String × α)) (key : String) (v : α) :
    dlookup (dset d key v) key = some v := by
  induction d with
  | nil => simp [dset, dlookup]
  | cons hd tl ih =>
    obtain ⟨k, w⟩ := hd
    by_cases h : k = key
    · simp [dset, dlookup, h]
    · simp [dset, dlookup, h, ih]

theorem dlookup_dset_ne {α : Type} (d : List (String × α)) (key key2 : String) (v : α)
    (h : key ≠ key2) : dlookup (dset d key v) key2 = dlookup d key2 := by
  induction d with
  | nil => simp [dset, dlookup, h]
  | cons hd tl ih =>
    obtain ⟨k, w⟩ := hd
    by_cases hk : k = key
    · subst hk; simp [dset, dlookup, h]
    · simp [dset, dlookup, hk, ih]

theorem dlookup_derase_self {α : Type} (d : List (String × α)) (key : String) :
    dlookup (derase d key) key = none := by
  induction d with
  | nil => simp [derase, dlookup]
  | cons hd tl ih =>
    obtain ⟨k, w⟩ := hd
    by_cases hk : k = key
    · simp [derase, hk, ih]
    · simp [derase, dlookup, hk, ih]

theorem dlookup_derase_ne {α : Type} (d : List (String × α)) (key key2 : String)
    (h : key ≠ key2) : dlookup (derase d key) key2 = dlookup d key2 := by
  induction d with
  | nil => simp [derase]
  | cons hd tl ih =>
    obtain ⟨k, w⟩ := hd
    by_cases hk : k = key
    · subst hk; simp [derase, dlookup, h, ih]
    · simp [derase, dlookup, hk, ih]

theorem hasKey_dset_self {α : Type} (d : List (String × α)) (key : String) (v : α) :
    hasKey (dset d key v) key = true := by
  simp [hasKey, dlookup_dset_self]

theorem hasKey_dset_ne {α : Type} (d : List (String × α)) (key key2 : String) (v : α)
    (h : key ≠ key2) : hasKey (dset d key v) key2 = hasKey d key2 := by
  simp [hasKey, dlookup_dset_ne _ _ _ _ h]

theorem hasKey_derase_self {α : Type} (d : List (String × α)) (key : String) :
    hasKey (derase d key) key = false := by
  simp [hasKey, dlookup_derase_self]

theorem hasKey_derase_ne {α : Type} (d : List (String × α)) (key key2 : String)
    (h : key ≠ key2) : hasKey (derase d key) key2 = hasKey d key2 := by
  simp [hasKey, dlookup_derase_ne _ _ _ h]

/-! Invariant preservation lemmas. -/

theorem sessionInv_status {s : ServiceState} (hs : SessionInv s) {cid : String}
    {sess : Session} {ci : MCPClientInfo} (h1 : dlookup s.sessions cid = some sess)
    (h2 : dlookup s.clients cid = some ci) : ci.status = ClientStatus.connected := by
  obtain ⟨ci2, hci2, hst⟩ := (hs cid).mp (by simp [hasKey, h1])
  rw [h2] at hci2
  cases Option.some.inj hci2
  exact hst

theorem sessionInv_absent {s : ServiceState} (hs : SessionInv s) {cid : String}
    (h : dlookup s.clients cid = none) : dlookup s.sessions cid = none := by
  cases hsk : dlookup s.sessions cid with
  | none => rfl
  | some sess =>
    obtain ⟨ci2, hci2, _⟩ := (hs cid).mp (by simp [hasKey, hsk])
    rw [h] at hci2
    cases hci2

/-- Replacing a registered record by one with the same status — and either
the same tools or a `connected` status — preserves the invariant. -/
theorem invariant_update_record (s : ServiceState) (cid : String) (ci ci2 : MCPClientInfo)
    (hcli : dlookup s.clients cid = some ci)
    (hstat2 : ci2.status = ci.status)
    (htools : ci2.tools = ci.tools ∨ ci.status = ClientStatus.connected)
    (h : Invariant s) :
    Invariant { s with clients := dset s.clients cid ci2 } := by
  obtain ⟨hs, ht⟩ := h
  constructor
  · intro k
    show hasKey s.sessions k = true ↔
      ∃ rec, dlookup (dset s.clients cid ci2) k = some rec ∧
        rec.status = ClientStatus.connected
    by_cases hk : cid = k
    · subst hk
      have base := hs cid
      rw [hcli] at base
      constructor
      · intro hkk
        obtain ⟨rec, hrec, hst⟩ := base.mp hkk
        cases Option.some.inj hrec
        refine ⟨ci2, dlookup_dset_self _ _ _, ?_⟩
        rw [hstat2]
        exact hst
      · rintro ⟨rec, hrec, hst⟩
        rw [dlookup_dset_self] at hrec
        cases Option.some.inj hrec
        refine base.mpr ⟨ci, rfl, ?_⟩
        rw [← hstat2]
        exact hst
    · simp only [dlookup_dset_ne _ _ _ _ hk]
      exact hs k
  · intro k rec hrec hne
    by_cases hk : cid = k
    · subst hk
      have hrec2 : dlookup (dset s.clients cid ci2) cid = some rec := hrec
      rw [dlookup_dset_self] at hrec2
      cases Option.some.inj hrec2
      rw [hstat2]
      rcases htools with heq | hconn
      · refine ht cid ci hcli ?_
        rw [← heq]
        exact hne
      · exact hconn
    · have hrec2 : dlookup (dset s.clients cid ci2) k = some rec := hrec
      rw [dlookup_dset_ne _ _ _ _ hk] at hrec2
      exact ht k rec hrec2 hne

theorem discover_preserves (env : Env) (cid : String) (s : ServiceState)
    (h : Invariant s) : Invariant (discoverTools env s cid) := by
  unfold discoverTools
  cases hsess : dlookup s.sessions cid with
  | none => cases hcli : dlookup s.clients cid <;> exact h
  | some sess =>
    cases hcli : dlookup s.clients cid with
    | none => exact h
    | some ci =>
      have hstat : ci.status = ClientStatus.connected := sessionInv_status h.1 hsess hcli
      dsimp only
      cases hlt : sessionListTools env sess with
      | ok result =>
        exact invariant_update_record s cid ci _ hcli rfl (Or.inr hstat) h
      | exn e =>
        exact invariant_update_record s cid ci _ hcli rfl (Or.inl rfl) h

/-- Setting the record at `cid` to a non-connected, tool-less record while
erasing its session and process entries yields the invariant, provided it
held away from `cid`. -/
theorem invariant_table_reset (cl : List (String × MCPClientInfo))
    (se : List (String × Session)) (pr : List (String × Nat))
    (r sh : Bool) (hl : Nat) (cid : String) (ci2 : MCPClientInfo)
    (hstat : ¬ ci2.status = ClientStatus.connected) (htl : ci2.tools = [])
    (hs : ∀ k, ¬ cid = k → (hasKey se k = true ↔
      ∃ ci, dlookup cl k = some ci ∧ ci.status = ClientStatus.connected))
    (ht : ∀ k ci, ¬ cid = k → dlookup cl k = some ci → ci.tools ≠ [] →
      ci.status = ClientStatus.connected) :
    Invariant { clients := dset cl cid ci2, sessions := derase se cid,
                processes := derase pr cid, running := r, shutdownSet := sh,
                healthLoops := hl } := by
  constructor
  · intro k
    show hasKey (derase se cid) k = true ↔
      ∃ rec, dlookup (dset cl cid ci2) k = some rec ∧
        rec.status = ClientStatus.connected
    by_cases hk : cid = k
    · subst hk
      rw [hasKey_derase_self]
      constructor
      · intro hff
        cases hff
      · rintro ⟨rec, hrec, hst⟩
        rw [dlookup_dset_self] at hrec
        cases Option.some.inj hrec
        exact absurd hst hstat
    · rw [hasKey_derase_ne _ _ _ hk]
      simp only [dlookup_dset_ne _ _ _ _ hk]
      exact hs k hk
  · intro k rec hrec hne
    by_cases hk : cid = k
    · subst hk
      have hrec2 : dlookup (dset cl cid ci2) cid = some rec := hrec
      rw [dlookup_dset_self] at hrec2
      cases Option.some.inj hrec2
      exact absurd htl hne
    · have hrec2 : dlookup (dset cl cid ci2) k = some rec := hrec
      rw [dlookup_dset_ne _ _ _ _ hk] at hrec2
      exact ht k rec hk hrec2 hne

theorem connect_preserves (env : Env) (cid : String) (s : ServiceState)
    (h : Invariant s) : Invariant (connectClient env s cid).2 := by
  obtain ⟨hs, ht⟩ := h
  cases hcli : dlookup s.clients cid with
  | none =>
    simp only [connectClient, hcli]
    exact ⟨hs, ht⟩
  | some ci =>
    by_cases hst : ci.status = ClientStatus.connected
    · simp only [connectClient, hcli, if_pos hst]
      exact ⟨hs, ht⟩
    · have htl : ci.tools = [] := by
        by_contra hne
        exact hst (ht cid ci hcli hne)
      have hside : ∀ k, ¬ cid = k →
          (hasKey s.sessions k = true ↔
            ∃ rec, dlookup (dset s.clients cid
              { ci with status := ClientStatus.connecting, last_error := none }) k = some rec ∧
              rec.status = ClientStatus.connected) := by
        intro k hk
        simp only [dlookup_dset_ne _ _ _ _ hk]
        exact hs k
      have htside : ∀ k rec, ¬ cid = k →
          dlookup (dset s.clients cid
            { ci with status := ClientStatus.connecting, last_error := none }) k = some rec →
          rec.tools ≠ [] → rec.status = ClientStatus.connected := by
        intro k rec hk hrec hne
        rw [dlookup_dset_ne _ _ _ _ hk] at hrec
        exact ht k rec hrec hne
      cases hcr : createSession env ci.config with
      | exn e =>
        simp only [connectClient, hcli, if_neg hst, hcr, connectFail, cleanupClientConnection]
        apply invariant_table_reset
        · intro hx
          cases hx
        · exact htl
        · exact hside
        · exact htside
      | ok sess =>
        cases hini : sessionInit env sess with
        | exn e =>
          simp only [connectClient, hcli, if_neg hst, hcr, hini, connectFail,
            cleanupClientConnection]
          apply invariant_table_reset
          · intro hx
            cases hx
          · exact htl
          · exact hside
          · exact htside
        | ok u =>
          simp only [connectClient, hcli, if_neg hst, hcr, hini]
          apply discover_preserves
          constructor
          · intro k
            show hasKey (dset s.sessions cid sess) k = true ↔
              ∃ rec, dlookup (dset (dset s.clients cid
                { ci with status := ClientStatus.connecting, last_error := none }) cid
                { ci with status := ClientStatus.connected, last_error := none,
                          last_seen := some env.now }) k = some rec ∧
                rec.status = ClientStatus.connected
            by_cases hk : cid = k
            · subst hk
              rw [hasKey_dset_self]
              constructor
              · intro _
                exact ⟨_, dlookup_dset_self _ _ _, rfl⟩
              · intro _
                rfl
            · rw [hasKey_dset_ne _ _ _ _ hk]
              simp only [dlookup_dset_ne _ _ _ _ hk]
              exact hs k
          · intro k rec hrec hne
            by_cases hk : cid = k
            · subst hk
              have hrec2 : dlookup (dset (dset s.clients cid
                  { ci with status := ClientStatus.connecting, last_error := none }) cid
                  { ci with status := ClientStatus.connected, last_error := none,
                            last_seen := some env.now }) cid = some rec := hrec
              rw [dlookup_dset_self] at hrec2
              cases Option.some.inj hrec2
              rfl
            · have hrec2 : dlookup (dset (dset s.clients cid
                  { ci with status := ClientStatus.connecting, last_error := none }) cid
                  { ci with status := ClientStatus.connected, last_error := none,
                            last_seen := some env.now }) k = some rec := hrec
              rw [dlookup_dset_ne _ _ _ _ hk, dlookup_dset_ne _ _ _ _ hk] at hrec2
              exact ht k rec hrec2 hne

theorem hasKey_false_lookup {α : Type} {d : List (String × α)} {k : String}
    (h : hasKey d k = false) : dlookup d k = none := by
  cases hl : dlookup d k with
  | none => rfl
  | some v =>
    rw [hasKey, hl] at h
    cases h

theorem disconnect_preserves (cid : String) (s : ServiceState) (h : Invariant s) :
    Invariant (disconnectClient s cid).2 := by
  obtain ⟨hs, ht⟩ := h
  cases hcli : dlookup s.clients cid with
  | none =>
    simp only [disconnectClient, hcli]
    exact ⟨hs, ht⟩
  | some ci =>
    simp only [disconnectClient, hcli, cleanupClientConnection]
    apply invariant_table_reset
    · intro hx
      cases hx
    · rfl
    · intro k hk
      exact hs k
    · intro k rec hk hrec hne
      exact ht k rec hrec hne

theorem remove_preserves (cid : String) (s : ServiceState) (h : Invariant s) :
    Invariant (removeClient s cid).2 := by
  obtain ⟨hs, ht⟩ := h
  cases hcli : dlookup s.clients cid with
  | none =>
    simp only [removeClient, hcli]
    exact ⟨hs, ht⟩
  | some ci =>
    simp only [removeClient, hcli, disconnectClient, cleanupClientConnection]
    constructor
    · intro k
      show hasKey (derase s.sessions cid) k = true ↔
        ∃ rec, dlookup (derase (dset s.clients cid
          { ci with status := ClientStatus.disconnected, tools := [] }) cid) k = some rec ∧
          rec.status = ClientStatus.connected
      by_cases hk : cid = k
      · subst hk
        simp [hasKey_derase_self, dlookup_derase_self]
      · rw [hasKey_derase_ne _ _ _ hk]
        simp only [dlookup_derase_ne _ _ _ hk, dlookup_dset_ne _ _ _ _ hk]
        exact hs k
    · intro k rec hrec hne
      by_cases hk : cid = k
      · subst hk
        have hrec2 : dlookup (derase (dset s.clients cid
            { ci with status := ClientStatus.disconnected, tools := [] }) cid) cid
            = some rec := hrec
        rw [dlookup_derase_self] at hrec2
        cases hrec2
      · have hrec2 : dlookup (derase (dset s.clients cid
            { ci with status := ClientStatus.disconnected, tools := [] }) cid) k
            = some rec := hrec
        rw [dlookup_derase_ne _ _ _ hk, dlookup_dset_ne _ _ _ _ hk] at hrec2
        exact ht k rec hrec2 hne

theorem add_fresh_invariant (s : ServiceState) (cid : String) (config : MCPClientConfig)
    (hfresh : hasKey s.clients cid = false) (h : Invariant s) :
    Invariant { s with clients := dset s.clients cid { id := cid, config := config } } := by
  obtain ⟨hs, ht⟩ := h
  have hlcn : dlookup s.clients cid = none := hasKey_false_lookup hfresh
  have hnos : dlookup s.sessions cid = none := sessionInv_absent hs hlcn
  constructor
  · intro k
    show hasKey s.sessions k = true ↔
      ∃ rec, dlookup (dset s.clients cid { id := cid, config := config }) k = some rec ∧
        rec.status = ClientStatus.connected
    by_cases hk : cid = k
    · subst hk
      simp [hasKey, hnos, dlookup_dset_self]
    · simp only [dlookup_dset_ne _ _ _ _ hk]
      exact hs k
  · intro k rec hrec hne
    by_cases hk : cid = k
    · subst hk
      have hrec2 : dlookup (dset s.clients cid { id := cid, config := config }) cid
          = some rec := hrec
      rw [dlookup_dset_self] at hrec2
      cases Option.some.inj hrec2
      exact absurd rfl hne
    · have hrec2 : dlookup (dset s.clients cid { id := cid, config := config }) k
          = some rec := hrec
      rw [dlookup_dset_ne _ _ _ _ hk] at hrec2
      exact ht k rec hrec2 hne

theorem add_preserves (env : Env) (cid : String) (config : MCPClientConfig)
    (s : ServiceState) (hfresh : hasKey s.clients cid = false) (h : Invariant s) :
    Invariant (addClient env s cid config).2 := by
  have h1 : Invariant { s with clients := dset s.clients cid { id := cid, config := config } } :=
    add_fresh_invariant s cid config hfresh h
  have h2 : Invariant (connectClient env
      { s with clients := dset s.clients cid { id := cid, config := config } } cid).2 :=
    connect_preserves env cid _ h1
  by_cases hauto : config.auto_connect = true
  · simp only [addClient, hauto, if_true]
    cases hcc : connectClient env
        { s with clients := dset s.clients cid { id := cid, config := config } } cid with
    | mk res s2 =>
      rw [hcc] at h2
      cases res with
      | exn e =>
        cases hcl2 : dlookup s2.clients cid with
        | none =>
          simp only [hcl2]
          exact h2
        | some ci2 =>
          simp only [hcl2]
          exact invariant_update_record s2 cid ci2 _ hcl2 rfl (Or.inl rfl) h2
      | ok b =>
        exact h2
  · have hauto2 : config.auto_connect = false := by
      cases hcf : config.auto_connect
      · rfl
      · exact absurd hcf hauto
    simp only [addClient, hauto2, if_false]
    exact h1

theorem sweep_fold_preserves (env : Env) :
    ∀ (l : List String) (s : ServiceState), Invariant s →
      Invariant (List.foldl (fun acc cid =>
        match dlookup acc.clients cid with
        | some ci =>
          if ci.status = ClientStatus.connected then discoverTools env acc cid else acc
        | none => acc) s l) := by
  intro l
  induction l with
  | nil =>
    intro s h
    exact h
  | cons hd tl ih =>
    intro s h
    rw [List.foldl_cons]
    apply ih
    cases hcl : dlookup s.clients hd with
    | none =>
      simp only [hcl]
      exact h
    | some ci =>
      by_cases hst : ci.status = ClientStatus.connected
      · simp only [hcl, if_pos hst]
        exact discover_preserves env hd s h
      · simp only [hcl, if_neg hst]
        exact h

theorem sweep_preserves (env : Env) (s : ServiceState) (h : Invariant s) :
    Invariant (performHealthChecks env s) :=
  sweep_fold_preserves env (s.clients.map Prod.fst) s h

theorem applyOp_preserves (s : ServiceState) (op : Op) (h : Invariant s)
    (hg : opGuard s op = true) : Invariant (applyOp s op) := by
  cases op with
  | add cid config env =>
    refine add_preserves env cid config s ?_ h
    simp only [opGuard, Bool.not_eq_true'] at hg
    exact hg
  | connect cid env => exact connect_preserves env cid s h
  | disconnect cid => exact disconnect_preserves cid s h
  | remove cid => exact remove_preserves cid s h
  | sweep env => exact sweep_preserves env s h

theorem runOps_invariant : ∀ (ops : List Op) (s : ServiceState), Invariant s →
    goodSeq s ops = true → Invariant (runOps s ops) := by
  intro ops
  induction ops with
  | nil =>
    intro s h _
    exact h
  | cons op rest ih =>
    intro s h hg
    rw [goodSeq, Bool.and_eq_true] at hg
    exact ih (applyOp s op) (applyOp_preserves s op h hg.1) hg.2

theorem inv_initial : Invariant initialState := by
  constructor
  · intro cid
    constructor
    · intro hk
      cases hk
    · rintro ⟨ci, hci, _⟩
      cases hci
  · intro cid ci hci
    cases hci

/-! Claim theorems. -/

/-- C2 (amended): after any sequence of `add_client` / `connect_client` /
`disconnect_client` / `remove_client` / health-sweep operations in which
`add_client` is only invoked on unregistered ids, every registered id has a
session-table entry exactly when its status is `connected`, and a non-empty
tools list only when `connected`.  (Over arbitrary sequences the claim is
false: `add_client` on a registered connected id overwrites the record and
orphans its session — see `c2_counterexample`.) -/
theorem c2_theorem (ops : List Op) (h : goodSeq initialState ops = true) :
    Invariant (runOps initialState ops) :=
  runOps_invariant ops initialState inv_initial h

/-- Witness for C2 at a concrete nine-operation sequence exercising add,
connect, failing sweeps, disconnect, auto-connect and remove. -/
theorem c2_witness :
    goodSeq initialState demoOps = true ∧ Invariant (runOps initialState demoOps) :=
  ⟨by decide, c2_theorem demoOps (by decide)⟩

/-- C2 counterexample: after add `a`, connect `a`, add `a` again, id `a` is
registered with status `disconnected` while a session entry for `a` is still
present, so the claimed session-iff-connected invariant fails. -/
theorem c2_counterexample : ¬ Invariant (runOps initialState dupOps) := by
  intro h
  obtain ⟨hs, _⟩ := h
  obtain ⟨ci, hcl, hst⟩ := (hs "a").mp (by decide)
  have hmap : (dlookup (runOps initialState dupOps).clients "a").map MCPClientInfo.status
      = some ClientStatus.disconnected := by decide
  rw [hcl] at hmap
  simp only [Option.map_some'] at hmap
  rw [hst] at hmap
  cases Option.some.inj hmap

/-- C3: evaluating the sweep at the failing input — a connected client with
`auto_connect` whose liveness probe (`list_tools`) fails — shows the client
is left `connected` with only `last_error` recorded, and its session entry
still present: the claimed transition to `error` (or a reconnect) never
happens, because `_discover_tools` swallows the probe failure and the
`except` handler in `_perform_health_checks` is unreachable. -/
theorem c3_theorem :
    (dlookup (performHealthChecks envProbeFail c3state).clients "c").map
        (fun ci => (ci.status, ci.last_error))
      = some (ClientStatus.connected, some "probe failed") ∧
    hasKey (performHealthChecks envProbeFail c3state).sessions "c" = true := by
  decide

/-- C4 counterexample: with id `c` registered, connected and holding a live
session, a second `add_client "c"` does not fail with any duplicate-id
error: it returns normally, replaces the record by a fresh disconnected one
(different config), and leaves the now-orphaned session entry in place. -/
theorem c4_counterexample :
    (dlookup (addClient envOk sConn "c" cfgSseBad).2.clients "c").map
        (fun ci => (ci.config.name, ci.status))
      = some ("bad", ClientStatus.disconnected) ∧
    hasKey (addClient envOk sConn "c" cfgSseBad).2.sessions "c" = true := by
  decide

/-- C4 (amended): `add_client` on an already-registered id does not fail and
does not preserve the record: it unconditionally overwrites it with a fresh
`disconnected` record for the new config, and (absent auto-connect) leaves
the session and process tables untouched. -/
theorem c4_theorem (env : Env) (s : ServiceState) (cid : String)
    (config : MCPClientConfig) (hdup : hasKey s.clients cid = true)
    (hauto : config.auto_connect = false) :
    addClient env s cid config =
      ({ id := cid, config := config },
       { s with clients := dset s.clients cid { id := cid, config := config } }) ∧
    (addClient env s cid config).2.sessions = s.sessions ∧
    (addClient env s cid config).2.processes = s.processes := by
  have hmain : addClient env s cid config =
      ({ id := cid, config := config },
       { s with clients := dset s.clients cid { id := cid, config := config } }) := by
    simp [addClient, hauto]
  refine ⟨hmain, ?_, ?_⟩
  · rw [hmain]
  · rw [hmain]

/-- Witness for C4 at the connected state `sConn`. -/
theorem c4_witness :
    addClient envOk sConn "c" cfgSseBad =
      ({ id := "c", config := cfgSseBad },
       { sConn with clients := dset sConn.clients "c" { id := "c", config := cfgSseBad } }) ∧
    (addClient envOk sConn "c" cfgSseBad).2.sessions = sConn.sessions ∧
    (addClient envOk sConn "c" cfgSseBad).2.processes = sConn.processes :=
  c4_theorem envOk sConn "c" cfgSseBad (by decide) (by decide)

/-- C9: `start` on an already-running service returns immediately and
changes nothing (in particular it spawns no second health-check loop);
on a stopped service it sets the flag and spawns exactly one loop. -/
theorem c9_theorem (s : ServiceState) :
    (s.running = true → startService s = s) ∧
    (s.running = false →
      startService s = { s with running := true, healthLoops := s.healthLoops + 1 }) := by
  constructor
  · intro h
    simp [startService, h]
  · intro h
    simp [startService, h]

/-- Witness for C9: starting twice from the initial state spawns one loop. -/
theorem c9_witness :
    startService initialState
      = { initialState with running := true, healthLoops := initialState.healthLoops + 1 } ∧
    startService { initialState with running := true, healthLoops := 1 }
      = { initialState with running := true, healthLoops := 1 } :=
  ⟨(c9_theorem initialState).2 (by decide),
   (c9_theorem { initialState with running := true, healthLoops := 1 }).1 (by decide)⟩

/-- C10: `disconnect_client` on an unregistered id returns `False` without
raising and leaves the whole state unchanged; on any registered id it
returns `True`, whatever the prior status. -/
theorem c10_theorem (s : ServiceState) (cid : String) :
    (dlookup s.clients cid = none → disconnectClient s cid = (false, s)) ∧
    (hasKey s.clients cid = true → (disconnectClient s cid).1 = true) := by
  constructor
  · intro h
    simp [disconnectClient, h]
  · intro h
    cases hcl : dlookup s.clients cid with
    | none =>
      rw [hasKey, hcl] at h
      cases h
    | some ci =>
      simp [disconnectClient, hcl]

/-- Witness for C10: a missing id and a connected id. -/
theorem c10_witness :
    disconnectClient s0c "missing" = (false, s0c) ∧
    (disconnectClient sConn "c").1 = true :=
  ⟨(c10_theorem s0c "missing").1 (by decide), (c10_theorem sConn "c").2 (by decide)⟩

/-- C7: `remove_client` returns `False` and changes nothing when the id is
unregistered; on any registered id — whatever its prior status — it returns
`True`, deletes the record, and leaves neither a session entry nor a
process entry for that id. -/
theorem c7_theorem (s : ServiceState) (cid : String) :
    (dlookup s.clients cid = none → removeClient s cid = (false, s)) ∧
    (hasKey s.clients cid = true →
      (removeClient s cid).1 = true ∧
      dlookup (removeClient s cid).2.clients cid = none ∧
      hasKey (removeClient s cid).2.sessions cid = false ∧
      hasKey (removeClient s cid).2.processes cid = false) := by
  constructor
  · intro h
    simp [removeClient, h]
  · intro h
    cases hcl : dlookup s.clients cid with
    | none =>
      rw [hasKey, hcl] at h
      cases h
    | some ci =>
      simp only [removeClient, hcl, disconnectClient, cleanupClientConnection]
      refine ⟨trivial, ?_, ?_, ?_⟩
      · exact dlookup_derase_self _ _
      · exact hasKey_derase_self _ _
      · exact hasKey_derase_self _ _

/-- Witness for C7: a missing id and a connected id. -/
theorem c7_witness :
    removeClient s0c "missing" = (false, s0c) ∧
    ((removeClient sConn "c").1 = true ∧
     dlookup (removeClient sConn "c").2.clients "c" = none ∧
     hasKey (removeClient sConn "c").2.sessions "c" = false ∧
     hasKey (removeClient sConn "c").2.processes "c" = false) :=
  ⟨(c7_theorem s0c "missing").1 (by decide), (c7_theorem sConn "c").2 (by decide)⟩

/-- C8: `connect_client` on an already-connected client is a complete
no-op returning success: the returned state is the input state, so no
second session is created, no process is spawned, and the record (status,
tools, last_seen, last_error) is untouched. -/
theorem c8_theorem (env : Env) (s : ServiceState) (cid : String) (ci : MCPClientInfo)
    (hcli : dlookup s.clients cid = some ci)
    (hst : ci.status = ClientStatus.connected) :
    connectClient env s cid = (PyResult.ok true, s) := by
  simp [connectClient, hcli, hst]

/-- Witness for C8 at the connected state `sConn`. -/
theorem c8_witness : connectClient envDF sConn "c" = (PyResult.ok true, sConn) :=
  c8_theorem envDF sConn "c" cRec (by decide) (by decide)

/-- C5: connecting a registered, not-yet-connected client whose transport
lacks its required parameter (sse without `url`, npx without `package`,
docker without `command`) raises the transport's missing-parameter
`ValueError`, leaves the record in `error` status with `last_error` set to
that message, and leaves no session and no process entry for that id. -/
theorem c5_theorem (env : Env) (s : ServiceState) (cid : String) (ci : MCPClientInfo)
    (hcli : dlookup s.clients cid = some ci)
    (hst : ¬ ci.status = ClientStatus.connected)
    (hmiss : missingRequiredParam ci.config = true) :
    (connectClient env s cid).1
        = PyResult.exn (PyErr.valueError (missingParamMsg ci.config.transport_type)) ∧
    (∃ ci2, dlookup (connectClient env s cid).2.clients cid = some ci2 ∧
      ci2.status = ClientStatus.error ∧
      ci2.last_error = some (missingParamMsg ci.config.transport_type)) ∧
    hasKey (connectClient env s cid).2.sessions cid = false ∧
    hasKey (connectClient env s cid).2.processes cid = false := by
  have hcr : createSession env ci.config
      = PyResult.exn (PyErr.valueError (missingParamMsg ci.config.transport_type)) := by
    simp only [missingRequiredParam] at hmiss
    cases htr : ci.config.transport_type with
    | stdio =>
      rw [htr] at hmiss
      have hmiss2 : false = true := hmiss
      cases hmiss2
    | sse =>
      rw [htr] at hmiss
      have hmiss2 : pyNotStr ci.config.connection_config.url = true := hmiss
      simp [createSession, htr, createSseSession, hmiss2, missingParamMsg]
    | npx =>
      rw [htr] at hmiss
      have hmiss2 : pyNotStr ci.config.connection_config.package = true := hmiss
      simp [createSession, htr, createNpxSession, hmiss2, missingParamMsg]
    | docker =>
      rw [htr] at hmiss
      have hmiss2 : pyNotVal ci.config.connection_config.command = true := hmiss
      simp [createSession, htr, createDockerSession, hmiss2, missingParamMsg]
  simp only [connectClient, hcli, if_neg hst, hcr, connectFail, cleanupClientConnection]
  refine ⟨trivial, ⟨_, dlookup_dset_self _ _ _, rfl, rfl⟩, ?_, ?_⟩
  · exact hasKey_derase_self _ _
  · exact hasKey_derase_self _ _

/-- Witness for C5: the url-less SSE client `bad`. -/
theorem c5_witness :
    (connectClient envOk s0bad "bad").1
        = PyResult.exn (PyErr.valueError (missingParamMsg badRec.config.transport_type)) ∧
    (∃ ci2, dlookup (connectClient envOk s0bad "bad").2.clients "bad" = some ci2 ∧
      ci2.status = ClientStatus.error ∧
      ci2.last_error = some (missingParamMsg badRec.config.transport_type)) ∧
    hasKey (connectClient envOk s0bad "bad").2.sessions "bad" = false ∧
    hasKey (connectClient envOk s0bad "bad").2.processes "bad" = false :=
  c5_theorem envOk s0bad "bad" badRec (by decide) (by decide) (by decide)

/-- C6: `call_tool` raises the client-not-found `ValueError` when the id or
its session is missing, the not-connected `RuntimeError` when the status is
not `connected`; a successful forwarded call returns the session's result
and bumps `last_seen`; a failed forwarded call records `last_error` and
re-raises the failure to the caller. -/
theorem c6_theorem (env : Env) (s : ServiceState) (cid tname : String)
    (args : List (String × String)) :
    ((dlookup s.sessions cid = none ∨ dlookup s.clients cid = none) →
      callTool env s cid tname args
        = (PyResult.exn (PyErr.valueError ("Client not found or not connected: " ++ cid)), s)) ∧
    (∀ sess ci, dlookup s.sessions cid = some sess → dlookup s.clients cid = some ci →
      ¬ ci.status = ClientStatus.connected →
      callTool env s cid tname args
        = (PyResult.exn (PyErr.runtimeError ("Client not connected: " ++ cid)), s)) ∧
    (∀ sess ci r, dlookup s.sessions cid = some sess → dlookup s.clients cid = some ci →
      ci.status = ClientStatus.connected → sessionCallTool env sess = PyResult.ok r →
      callTool env s cid tname args
        = (PyResult.ok r, { s with clients := dset s.clients cid { ci with last_seen := some env.now } })) ∧
    (∀ sess ci e, dlookup s.sessions cid = some sess → dlookup s.clients cid = some ci →
      ci.status = ClientStatus.connected → sessionCallTool env sess = PyResult.exn e →
      callTool env s cid tname args
        = (PyResult.exn e, { s with clients := dset s.clients cid { ci with last_error := some (PyErr.msg e) } })) := by
  refine ⟨?_, ?_, ?_, ?_⟩
  · intro h
    rcases h with h | h
    · cases hcl : dlookup s.clients cid with
      | none => simp [callTool, h, hcl]
      | some ci => simp [callTool, h, hcl]
    · cases hse : dlookup s.sessions cid with
      | none => simp [callTool, h, hse]
      | some sess => simp [callTool, h, hse]
  · intro sess ci hse hcl hst
    simp [callTool, hse, hcl, if_neg hst]
  · intro sess ci r hse hcl hst hcall
    simp [callTool, hse, hcl, hst, hcall]
  · intro sess ci e hse hcl hst hcall
    simp [callTool, hse, hcl, hst, hcall]

/-- Witness for C6: the four behaviors at concrete states. -/
theorem c6_witness :
    callTool envOk sConn "missing" "t" []
      = (PyResult.exn (PyErr.valueError ("Client not found or not connected: " ++ "missing")), sConn) ∧
    (callTool envOk sDiscSess "c" "t" []).1
      = PyResult.exn (PyErr.runtimeError ("Client not connected: " ++ "c")) ∧
    (callTool envOk sConn "c" "t" []).1 = PyResult.ok { content := "ok" } ∧
    (dlookup (callTool envOk sConn "c" "t" []).2.clients "c").map MCPClientInfo.last_seen
      = some (some 1) ∧
    (callTool envCallFail sConn "c" "t" []).1 = PyResult.exn (PyErr.generic "call failed") ∧
    (dlookup (callTool envCallFail sConn "c" "t" []).2.clients "c").map MCPClientInfo.last_error
      = some (some "call failed") := by
  refine ⟨?_, ?_, ?_, ?_, ?_, ?_⟩
  · exact (c6_theorem envOk sConn "missing" "t" []).1 (Or.inl (by decide))
  · rw [(c6_theorem envOk sDiscSess "c" "t" []).2.1 Session.real errRec (by decide) (by decide)
      (by decide)]
  · rw [(c6_theorem envOk sConn "c" "t" []).2.2.1 Session.real cRec { content := "ok" }
      (by decide) (by decide) (by decide) (by decide)]
  · rw [(c6_theorem envOk sConn "c" "t" []).2.2.1 Session.real cRec { content := "ok" }
      (by decide) (by decide) (by decide) (by decide)]
    decide
  · rw [(c6_theorem envCallFail sConn "c" "t" []).2.2.2 Session.real cRec
      (PyErr.generic "call failed") (by decide) (by decide) (by decide) (by decide)]
  · rw [(c6_theorem envCallFail sConn "c" "t" []).2.2.2 Session.real cRec
      (PyErr.generic "call failed") (by decide) (by decide) (by decide) (by decide)]
    decide

/-- C1 counterexample: with the SSE client `c` registered, an environment in
which session creation and `initialize()` succeed but `list_tools()` fails
makes `connect_client` nonetheless return success, leave the client
`connected`, and keep its session entry — the connect attempt does not fail
and nothing is re-raised. -/
theorem c1_counterexample :
    (connectClient envDF s0c "c").1 = PyResult.ok true ∧
    (dlookup (connectClient envDF s0c "c").2.clients "c").map
        (fun ci => (ci.status, ci.last_error))
      = some (ClientStatus.connected, some "boom") ∧
    hasKey (connectClient envDF s0c "c").2.sessions "c" = true := by
  decide

/-- C1 (amended): when session creation and `initialize()` succeed but the
tool-discovery step fails, `connect_client` still returns success: the
client stays `connected`, its session entry is retained, and the discovery
failure is only recorded into `last_error` (it is not re-raised and no
cleanup runs). -/
theorem c1_theorem (env : Env) (s : ServiceState) (cid : String) (ci : MCPClientInfo)
    (sess : Session) (e : PyErr)
    (hcli : dlookup s.clients cid = some ci)
    (hst : ¬ ci.status = ClientStatus.connected)
    (hcr : createSession env ci.config = PyResult.ok sess)
    (hini : sessionInit env sess = PyResult.ok ())
    (hlt : sessionListTools env sess = PyResult.exn e) :
    (connectClient env s cid).1 = PyResult.ok true ∧
    dlookup (connectClient env s cid).2.sessions cid = some sess ∧
    ∃ ci2, dlookup (connectClient env s cid).2.clients cid = some ci2 ∧
      ci2.status = ClientStatus.connected ∧ ci2.last_error = some (PyErr.msg e) ∧
      ci2.tools = ci.tools := by
  simp only [connectClient, hcli, if_neg hst, hcr, hini, discoverTools,
    dlookup_dset_self, hlt]
  exact ⟨trivial, trivial, ⟨_, rfl, rfl, rfl, rfl⟩⟩

/-- Witness for C1 at the concrete discovery-failure environment `envDF`. -/
theorem c1_witness :
    (connectClient envDF s0c "c").1 = PyResult.ok true ∧
    dlookup (connectClient envDF s0c "c").2.sessions "c" = some Session.real ∧
    ∃ ci2, dlookup (connectClient envDF s0c "c").2.clients "c" = some ci2 ∧
      ci2.status = ClientStatus.connected ∧ ci2.last_error = some (PyErr.msg (PyErr.generic "boom")) ∧
      ci2.tools = c1rec.tools :=
  c1_theorem envDF s0c "c" c1rec Session.real (PyErr.generic "boom")
    (by decide) (by decide) (by decide) (by decide) (by decide)
